import Mathlib

/-!
# ForecastX — verification of the request-mediation core

Shallow embedding of the cache / throttle / fetch logic of `src/src/App.jsx`
(a React weather app backed by Open-Meteo).  The UI component (`App`,
`Highlight`) is out of scope; we embed:

  * the module-level constants `CACHE_TTL_MS`, `MIN_REQUEST_INTERVAL_MS`;
  * `loadCacheFromStorage` (lines 15–32);
  * `persistCache` (lines 34–44);
  * `fetchCoordsByName` (lines 58–104);
  * `fetchWeatherByCoords` (lines 106–159);
  * `mapWeatherCode` (lines 161–193).

Modelling conventions:

  * JS `Map` objects (the two caches and the `requestLog` ledger) are
    association lists in insertion order with unique keys maintained by
    `mapSet`, mirroring `Map.set` (replace in place when the key exists,
    append otherwise) and `Map.get` (`List.lookup`).
  * `Date.now()` is an explicit `now : Nat` parameter (milliseconds).  All
    `Date.now()` reads inside a single invocation are modelled as the same
    instant.
  * The network (`fetch` + `AbortController` + `res.json()`) is an oracle
    `NetOutcome ρ` supplied by the environment: the abort path, the
    transport-failure path, or a response with an `ok` flag and a parsed
    JSON body of shape `ρ`.
  * `localStorage` is an oracle as well: `StorageState` for reads,
    a `storageFails : Bool` flag for writes.
  * Numeric JSON payload fields are `Rat` (exact, as the claims never do
    float arithmetic on them); weather condition codes are `Int`.
  * A thrown `Error` is an `Except.error` carrying a constructor per throw
    site; `errorMessage` reproduces the exact JS message strings.
-/

/-- `const CACHE_TTL_MS = 10 * 60 * 1000` (App.jsx line 5). -/
def CACHE_TTL_MS : Nat := 10 * 60 * 1000

/-- `const MIN_REQUEST_INTERVAL_MS = 15 * 1000` (App.jsx line 7). -/
def MIN_REQUEST_INTERVAL_MS : Nat := 15 * 1000

/-- A cache entry `{ data, ts }` as stored in the weather / geocode caches. -/
structure CacheEntry (α : Type) where
  data : α
  ts : Nat
deriving DecidableEq, Repr

/-- A JS `Map` from string keys, in insertion order with unique keys. -/
abbrev CacheMap (α : Type) := List (String × α)

/-- `Map.set k v`: replace the value in place when `k` is present (keeping
its insertion position), append `(k, v)` otherwise. -/
def mapSet {α : Type} (m : CacheMap α) (k : String) (v : α) : CacheMap α :=
  if (m.lookup k).isSome then
    m.map (fun p => if p.1 == k then (k, v) else p)
  else
    m ++ [(k, v)]

/-- The persisted-storage read oracle seen by `loadCacheFromStorage`:
`unavailable` is `typeof window === "undefined"` or `localStorage` itself
throwing; `absent` is a null/empty record; `corrupt` is a record on which
`JSON.parse` throws or that does not parse to an array; `record` is a
parsed array of `[key, value]` pairs where each value is either a
non-object / object without usable fields (`none`) or `{data, ts}`. -/
inductive StorageState (α : Type) where
  | unavailable
  | absent
  | corrupt
  | record (entries : List (String × Option (CacheEntry α)))

/-- `loadCacheFromStorage(name)` (App.jsx lines 15–32).  The storage medium
and the record name are absorbed into the `StorageState` oracle; `now` is
`Date.now()`.  The guard `v?.ts && Date.now() - v.ts < CACHE_TTL_MS * 2`
drops entries with missing or zero (falsy) `ts` and entries at least
`2 × TTL` old. -/
def loadCacheFromStorage {α : Type} (now : Nat) (st : StorageState α) :
    CacheMap (CacheEntry α) :=
  match st with
  | .unavailable => []
  | .absent => []
  | .corrupt => []
  | .record entries =>
      entries.foldl
        (fun map kv =>
          match kv.2 with
          | some v =>
              if v.ts ≠ 0 ∧ now - v.ts < CACHE_TTL_MS * 2 then
                mapSet map kv.1 v
              else map
          | none => map)
        []

/-- The list `persistCache` serializes: entries sorted descending by `ts`
(JS `Array.prototype.sort` is stable; the comparator is
`(b[1]?.ts ?? 0) - (a[1]?.ts ?? 0)`), truncated to `maxEntries`
(App.jsx lines 36–38). -/
def persistEntries {α : Type} (m : CacheMap (CacheEntry α))
    (maxEntries : Nat := 12) : List (String × CacheEntry α) :=
  (m.mergeSort (fun a b => decide (b.2.ts ≤ a.2.ts))).take maxEntries

/-- `persistCache(map, name, maxEntries = 12)` (App.jsx lines 34–44).
Returns the record now in storage: `none` when nothing was written — the
`typeof window === "undefined"` early return or a swallowed
`localStorage.setItem` failure (quota, private mode), both folded into the
`storageFails` oracle.  The function is total: no failure propagates. -/
def persistCache {α : Type} (m : CacheMap (CacheEntry α))
    (storageFails : Bool) (maxEntries : Nat := 12) :
    Option (List (String × CacheEntry α)) :=
  if storageFails then none else some (persistEntries m maxEntries)

/-- The static table of `mapWeatherCode` (App.jsx lines 162–191). -/
def weatherTable : List (Int × String) :=
  [(0, "Clear sky"), (1, "Mainly clear"), (2, "Partly cloudy"),
   (3, "Overcast"), (45, "Fog"), (48, "Depositing rime fog"),
   (51, "Light drizzle"), (53, "Moderate drizzle"), (55, "Dense drizzle"),
   (56, "Light freezing drizzle"), (57, "Dense freezing drizzle"),
   (61, "Slight rain"), (63, "Moderate rain"), (65, "Heavy rain"),
   (66, "Light freezing rain"), (67, "Heavy freezing rain"),
   (71, "Slight snow"), (73, "Moderate snow"), (75, "Heavy snow"),
   (77, "Snow grains"), (80, "Slight rain showers"),
   (81, "Moderate rain showers"), (82, "Violent rain showers"),
   (85, "Slight snow showers"), (86, "Heavy snow showers"),
   (95, "Thunderstorm"), (96, "Thunderstorm with slight hail"),
   (99, "Thunderstorm with heavy hail")]

/-- `mapWeatherCode(code)` (App.jsx lines 161–193): `table[code] ?? "-"`.
The argument is `Option Int` because the caller passes
`cw.weathercode`, which is `undefined` when the payload lacks
`current_weather`; `table[undefined]` is `undefined`, hence `"-"`. -/
def mapWeatherCode (code : Option Int) : String :=
  (code.bind (fun c => weatherTable.lookup c)).getD "-"

/-- The error taxonomy: one constructor per `throw new Error(...)` site of
`fetchCoordsByName` / `fetchWeatherByCoords`.  `rateLimited` carries the
computed `waitSeconds`. -/
inductive FetchError where
  | invalidInput
  | timeout
  | networkError
  | upstreamError
  | notFound
  | rateLimited (waitSeconds : Nat)
deriving DecidableEq, Repr

/-- The exact JS message string thrown at each site (geocode variants for
`timeout` / `networkError` / `upstreamError` differ from the weather ones;
this map covers the weather fetcher plus the geocode-only constructors). -/
def errorMessage : FetchError → String
  | .invalidInput => "Enter a city or address to search."
  | .timeout => "Request timed out. Please try again."
  | .networkError => "Network error while fetching weather."
  | .upstreamError => "Unable to fetch weather"
  | .notFound => "No matches found. Try another place or add more detail."
  | .rateLimited w => s!"Please wait ~{w}s before retrying this location."

/-- Outcome of one `fetch(url, signal)` + `res.json()` round trip, as seen
by the caller: the abort-signal path (`err.name === "AbortError"`), any
other rejection (transport failure), or a response with its `ok` flag and
parsed JSON body. -/
inductive NetOutcome (ρ : Type) where
  | abortError
  | otherError
  | response (ok : Bool) (body : ρ)

/-- One element of the geocoding payload's `results` array; the fields
`fetchCoordsByName` consumes (`latitude`, `longitude`, `name`, optional
`admin1`, `country_code`). -/
structure GeocodeResult where
  latitude : Rat
  longitude : Rat
  name : String
  admin1 : Option String
  country_code : String
deriving DecidableEq, Repr

/-- The geocoding response body: an object with an optional `results`
array (`data.results?.[0]`). -/
structure GeocodeBody where
  results : Option (List GeocodeResult)
deriving DecidableEq, Repr

/-- `{ lat, lon, label }` produced by `fetchCoordsByName`. -/
structure NormalizedGeocode where
  lat : Rat
  lon : Rat
  label : String
deriving DecidableEq, Repr

/-- The `current_weather` object of the forecast payload.  Every field is
optional: `fetchWeatherByCoords` reads them off `data.current_weather || {}`,
so each may be `undefined`. -/
structure CurrentWeather where
  temperature : Option Rat
  windspeed : Option Rat
  winddirection : Option Rat
  weathercode : Option Int
  time : Option String
deriving DecidableEq, Repr

/-- The forecast response body: `latitude`, `longitude`, optional
`current_weather`, and the optional `hourly.relativehumidity_2m` array
(`none` when `hourly` or the series is absent). -/
structure WeatherBody where
  latitude : Option Rat
  longitude : Option Rat
  current_weather : Option CurrentWeather
  hourly_relativehumidity_2m : Option (List Rat)
deriving DecidableEq, Repr

/-- The normalized weather reading built at App.jsx lines 145–154. -/
structure NormalizedWeather where
  location_lat : Option Rat
  location_lon : Option Rat
  temp : Option Rat
  windspeed : Option Rat
  winddirection : Option Rat
  weathercode : Option Int
  time : Option String
  humidity : Option Rat
  description : String
deriving DecidableEq, Repr

deriving instance DecidableEq for Except

/-- Result of one invocation of a fetch function over state type `σ`:
the returned value or thrown error, the post-state, and whether the
invocation reached its `fetch(...)` network call. -/
structure StepOutcome (α σ : Type) where
  result : Except FetchError α
  state : σ
  networkCalled : Bool
deriving DecidableEq, Repr

/-- JS `String.prototype.trim` (used at App.jsx line 59), modelled over
the character list: strip leading and trailing whitespace. -/
def trimStr (s : String) : String :=
  ⟨(((s.data.dropWhile Char.isWhitespace).reverse.dropWhile
      Char.isWhitespace).reverse)⟩

/-- JS `String.prototype.toLowerCase` (used at App.jsx line 61), modelled
over the character list. -/
def toLowerStr (s : String) : String :=
  ⟨s.data.map Char.toLower⟩

/-- The part of `fetchCoordsByName` after the cache check: the network
round trip and normalization, App.jsx lines 67–103.  `key` is the cache
key the result is written under. -/
def fetchCoordsByNameNet (key : String) (now : Nat)
    (net : NetOutcome GeocodeBody)
    (cache : CacheMap (CacheEntry NormalizedGeocode)) :
    StepOutcome NormalizedGeocode (CacheMap (CacheEntry NormalizedGeocode)) :=
  match net with
  | .abortError => ⟨.error .timeout, cache, true⟩
  | .otherError => ⟨.error .networkError, cache, true⟩
  | .response ok body =>
      if !ok then ⟨.error .upstreamError, cache, true⟩
      else
        match (body.results.getD []).head? with
        | none => ⟨.error .notFound, cache, true⟩
        | some first =>
            let normalized : NormalizedGeocode :=
              { lat := first.latitude
                lon := first.longitude
                label := first.name
                  ++ (match first.admin1 with
                      | some a => ", " ++ a
                      | none => "")
                  ++ ", " ++ first.country_code }
            ⟨.ok normalized, mapSet cache key ⟨normalized, now⟩, true⟩

/-- `fetchCoordsByName(name)` (App.jsx lines 58–104).  State is the
`geocodeCache` map; `now` is `Date.now()`; `net` is the network oracle
(URL construction is absorbed into it).  The write-through also calls
`persistCache(geocodeCache, "geocodeCache")`, whose storage effect is
modelled separately by `persistCache` and does not touch the map. -/
def fetchCoordsByName (name : String) (now : Nat)
    (net : NetOutcome GeocodeBody)
    (cache : CacheMap (CacheEntry NormalizedGeocode)) :
    StepOutcome NormalizedGeocode (CacheMap (CacheEntry NormalizedGeocode)) :=
  let trimmed := trimStr name
  if trimmed = "" then
    ⟨.error .invalidInput, cache, false⟩
  else
    let key := toLowerStr trimmed
    match cache.lookup key with
    | some cached =>
        if now - cached.ts < CACHE_TTL_MS then
          ⟨.ok cached.data, cache, false⟩
        else
          fetchCoordsByNameNet key now net cache
    | none => fetchCoordsByNameNet key now net cache

/-- Combined mutable state of the weather path: the `weatherCache` map and
the `requestLog` throttle ledger (App.jsx lines 9–10). -/
structure WeatherState where
  weatherCache : CacheMap (CacheEntry NormalizedWeather)
  requestLog : CacheMap Nat
deriving DecidableEq, Repr

/-- The part of `fetchWeatherByCoords` after the cache check: the throttle
gate (App.jsx lines 113–119) and the network round trip plus write-through
(lines 121–158). -/
def fetchWeatherThrottled (key : String) (now : Nat)
    (net : NetOutcome WeatherBody) (st : WeatherState) :
    StepOutcome NormalizedWeather WeatherState :=
  let lastRequest := (st.requestLog.lookup key).getD 0
  let elapsed := now - lastRequest
  if elapsed < MIN_REQUEST_INTERVAL_MS then
    let waitSeconds := (MIN_REQUEST_INTERVAL_MS - elapsed + 999) / 1000
    ⟨.error (.rateLimited waitSeconds), st, false⟩
  else
    match net with
    | .abortError => ⟨.error .timeout, st, true⟩
    | .otherError => ⟨.error .networkError, st, true⟩
    | .response ok body =>
        if !ok then ⟨.error .upstreamError, st, true⟩
        else
          let cw := body.current_weather.getD ⟨none, none, none, none, none⟩
          let normalized : NormalizedWeather :=
            { location_lat := body.latitude
              location_lon := body.longitude
              temp := cw.temperature
              windspeed := cw.windspeed
              winddirection := cw.winddirection
              weathercode := cw.weathercode
              time := cw.time
              humidity := (body.hourly_relativehumidity_2m.getD []).head?
              description := mapWeatherCode cw.weathercode }
          ⟨.ok normalized,
           { weatherCache := mapSet st.weatherCache key ⟨normalized, now⟩
             requestLog := mapSet st.requestLog key now },
           true⟩

/-- `fetchWeatherByCoords(lat, lon)` (App.jsx lines 106–159).  The function
uses its arguments only through the template key `` `${lat},${lon}` `` and
the request URL (absorbed into the oracle), so it is parameterized directly
by that rendered `key`.  `now` is `Date.now()`; `net` the network oracle.
The success path also calls `persistCache(weatherCache, "weatherCache")`,
modelled separately. -/
def fetchWeatherByCoords (key : String) (now : Nat)
    (net : NetOutcome WeatherBody) (st : WeatherState) :
    StepOutcome NormalizedWeather WeatherState :=
  match st.weatherCache.lookup key with
  | some cached =>
      if now - cached.ts < CACHE_TTL_MS then
        ⟨.ok cached.data, st, false⟩
      else
        fetchWeatherThrottled key now net st
  | none => fetchWeatherThrottled key now net st


/-! ## Helper lemmas on the `Map` model -/

/-- Unfolding `List.lookup` on a cons cell into `if` form. -/
theorem lookup_cons {α : Type} (a k : String) (b : α) (t : CacheMap α) :
    ((a, b) :: t : CacheMap α).lookup k = if k == a then some b else t.lookup k := by
  cases h : k == a <;> simp [List.lookup, h]

/-- Replacing the value at key `k` pointwise leaves other keys' lookups
unchanged. -/
theorem lookup_replace_ne {α : Type} (k k0 : String) (v : α) (hne : k0 ≠ k) :
    ∀ m : CacheMap α,
      (m.map (fun p => if p.1 == k then (k, v) else p)).lookup k0 = m.lookup k0 := by
  intro m
  induction m with
  | nil => simp
  | cons p t ih =>
      obtain ⟨a, b⟩ := p
      by_cases hak : a = k
      · subst hak
        have h1 : (k0 == a) = false := beq_eq_false_iff_ne.mpr hne
        simp only [List.map_cons, beq_self_eq_true, if_true, lookup_cons, h1,
          Bool.false_eq_true, if_false]
        simpa using ih
      · have hab : (a == k) = false := beq_eq_false_iff_ne.mpr hak
        simp only [List.map_cons, hab, Bool.false_eq_true, if_false, lookup_cons]
        cases h2 : k0 == a
        · simp only [Bool.false_eq_true, if_false]
          simpa using ih
        · simp

/-- Appending a binding for a different key leaves a lookup unchanged. -/
theorem lookup_append_ne {α : Type} (k k0 : String) (v : α) (hne : k0 ≠ k) :
    ∀ m : CacheMap α, (m ++ [(k, v)]).lookup k0 = m.lookup k0 := by
  intro m
  induction m with
  | nil => simp [lookup_cons, beq_eq_false_iff_ne.mpr hne]
  | cons p t ih =>
      obtain ⟨a, b⟩ := p
      simp only [List.cons_append, lookup_cons]
      cases h2 : k0 == a <;> simp [ih]

/-- Replacing the value at key `k` pointwise makes `k` map to `v`,
provided `k` was bound. -/
theorem lookup_replace_self {α : Type} (k : String) (v : α) :
    ∀ m : CacheMap α, (m.lookup k).isSome →
      (m.map (fun p => if p.1 == k then (k, v) else p)).lookup k = some v := by
  intro m
  induction m with
  | nil => intro h; simp at h
  | cons p t ih =>
      obtain ⟨a, b⟩ := p
      intro h
      by_cases hak : a = k
      · subst hak
        simp [lookup_cons]
      · have hab : (a == k) = false := beq_eq_false_iff_ne.mpr hak
        have hka : (k == a) = false := beq_eq_false_iff_ne.mpr (Ne.symm hak)
        simp only [List.map_cons, hab, Bool.false_eq_true, if_false, lookup_cons,
          hka] at h ⊢
        exact ih h

/-- After `Map.set k v`, looking up `k` yields `v`. -/
theorem lookup_mapSet_self {α : Type} (m : CacheMap α) (k : String) (v : α) :
    (mapSet m k v).lookup k = some v := by
  unfold mapSet
  split
  case isTrue h => exact lookup_replace_self k v m h
  case isFalse h =>
    have hnone : m.lookup k = none := Option.not_isSome_iff_eq_none.mp h
    clear h
    induction m with
    | nil => simp [lookup_cons]
    | cons p t ih =>
        obtain ⟨a, b⟩ := p
        simp only [lookup_cons, List.cons_append] at hnone ⊢
        cases h2 : k == a
        · simp only [h2, Bool.false_eq_true, if_false] at hnone ⊢
          exact ih hnone
        · simp [h2] at hnone

/-- `Map.set k v` does not affect lookups of other keys. -/
theorem lookup_mapSet_ne {α : Type} (m : CacheMap α) (k k0 : String) (v : α)
    (hne : k0 ≠ k) : (mapSet m k v).lookup k0 = m.lookup k0 := by
  unfold mapSet
  split
  · exact lookup_replace_ne k k0 v hne m
  · exact lookup_append_ne k k0 v hne m

/-- `Map.set` never shrinks the map: its length is the old length, or one
more when the key is new. -/
theorem length_mapSet {α : Type} (m : CacheMap α) (k : String) (v : α) :
    (mapSet m k v).length =
      if (m.lookup k).isSome then m.length else m.length + 1 := by
  unfold mapSet
  split <;> simp_all

/-- `⌈x / 1000⌉` over the rationals agrees with the Nat computation
`(x + 999) / 1000` for positive `x`. -/
theorem ceil_div_thousand (x : Nat) (hx : 0 < x) :
    ⌈(x : ℚ) / 1000⌉₊ = (x + 999) / 1000 := by
  have hn : (x + 999) / 1000 ≠ 0 := by omega
  rw [Nat.ceil_eq_iff hn]
  have h1 : ((x + 999) / 1000 - 1) * 1000 < x := by omega
  have h2 : x ≤ ((x + 999) / 1000) * 1000 := by omega
  constructor
  · rw [lt_div_iff₀ (by norm_num : (0:ℚ) < 1000)]
    exact_mod_cast h1
  · rw [div_le_iff₀ (by norm_num : (0:ℚ) < 1000)]
    exact_mod_cast h2

/-! ## Claim theorems -/

/-- C1: a fresh weather-cache hit (age < TTL) returns the cached value
unchanged, performs no network call, and leaves the whole state (cache and
throttle ledger) untouched — in particular, it cannot fail `RateLimited`,
whatever the ledger holds for that key. -/
theorem fetchWeather_freshCacheHit (key : String) (now : Nat)
    (net : NetOutcome WeatherBody) (st : WeatherState)
    (c : CacheEntry NormalizedWeather)
    (hc : st.weatherCache.lookup key = some c)
    (hfresh : now - c.ts < CACHE_TTL_MS) :
    fetchWeatherByCoords key now net st = ⟨.ok c.data, st, false⟩ := by
  unfold fetchWeatherByCoords
  rw [hc]
  simp [hfresh]

/-- Witness for C1: a concrete fresh hit whose ledger time (0ms before
`now`) is well inside the 15s throttle window, returned without any
network call. -/
theorem fetchWeather_freshCacheHit_witness :
    fetchWeatherByCoords "1,2" 1 .abortError
        ⟨[("1,2", ⟨⟨none, none, none, none, none, none, none, none, "-"⟩, 0⟩)],
         [("1,2", 0)]⟩ =
      ⟨.ok ⟨none, none, none, none, none, none, none, none, "-"⟩,
       ⟨[("1,2", ⟨⟨none, none, none, none, none, none, none, none, "-"⟩, 0⟩)],
        [("1,2", 0)]⟩, false⟩ :=
  fetchWeather_freshCacheHit "1,2" 1 .abortError _
    ⟨⟨none, none, none, none, none, none, none, none, "-"⟩, 0⟩ rfl (by decide)

/-- A key bound nowhere in an association list looks up to `none`. -/
theorem lookup_eq_none_of_not_mem_keys {κ α : Type} [BEq κ] [LawfulBEq κ]
    (c : κ) : ∀ l : List (κ × α), c ∉ l.map Prod.fst → l.lookup c = none := by
  intro l
  induction l with
  | nil => intro _; rfl
  | cons p t ih =>
      intro h
      obtain ⟨a, b⟩ := p
      simp only [List.map_cons, List.mem_cons, not_or] at h
      have : (c == a) = false := beq_eq_false_iff_ne.mpr h.1
      simp [List.lookup, this, ih h.2]

/-- C6: `mapWeatherCode` is a pure total lookup: each code in the fixed
table yields its fixed label (in particular `0 → "Clear sky"` and
`95 → "Thunderstorm"`), and every integer outside the table yields the
sentinel `"-"`. -/
theorem mapWeatherCode_total :
    mapWeatherCode (some 0) = "Clear sky" ∧
    mapWeatherCode (some 95) = "Thunderstorm" ∧
    (∀ c s, (c, s) ∈ weatherTable → mapWeatherCode (some c) = s) ∧
    (∀ c : Int, c ∉ weatherTable.map Prod.fst → mapWeatherCode (some c) = "-") := by
  refine ⟨by decide, by decide, ?_, ?_⟩
  · intro c s h
    fin_cases h <;> rfl
  · intro c h
    unfold mapWeatherCode
    rw [Option.some_bind, lookup_eq_none_of_not_mem_keys c weatherTable h]
    rfl

/-- Witness for C6: code 2 is in the table and maps to its label; code 42
is not in the table and maps to `"-"`. -/
theorem mapWeatherCode_total_witness :
    ((2 : Int), "Partly cloudy") ∈ weatherTable ∧
    mapWeatherCode (some 2) = "Partly cloudy" ∧
    ((42 : Int) ∉ weatherTable.map Prod.fst) ∧
    mapWeatherCode (some 42) = "-" :=
  ⟨by decide, mapWeatherCode_total.2.2.1 2 "Partly cloudy" (by decide),
   by decide, mapWeatherCode_total.2.2.2 42 (by decide)⟩

/-- C2: with no fresh cache entry for the key, a call at `now` while the
ledger holds a last-fetch time `T` with `now − T < MIN_REQUEST_INTERVAL_MS`
fails `RateLimited` carrying the remaining wait rounded up to the nearest
whole second, makes no network call, and changes nothing. -/
theorem fetchWeather_rateLimited (key : String) (T now : Nat)
    (net : NetOutcome WeatherBody) (st : WeatherState)
    (hmiss : ∀ c, st.weatherCache.lookup key = some c → CACHE_TTL_MS ≤ now - c.ts)
    (hlog : st.requestLog.lookup key = some T)
    (hT : T ≤ now) (hlt : now - T < MIN_REQUEST_INTERVAL_MS) :
    fetchWeatherByCoords key now net st =
      ⟨.error (.rateLimited
          ⌈((MIN_REQUEST_INTERVAL_MS : ℚ) - ((now : ℚ) - (T : ℚ))) / 1000⌉₊),
       st, false⟩ := by
  have hkey : fetchWeatherByCoords key now net st =
      fetchWeatherThrottled key now net st := by
    unfold fetchWeatherByCoords
    cases hc : st.weatherCache.lookup key with
    | none => rfl
    | some c => simp [Nat.not_lt.mpr (hmiss c hc)]
  have hcast : ((MIN_REQUEST_INTERVAL_MS - (now - T) : Nat) : ℚ)
      = (MIN_REQUEST_INTERVAL_MS : ℚ) - ((now : ℚ) - (T : ℚ)) := by
    rw [Nat.cast_sub (le_of_lt hlt), Nat.cast_sub hT]
  have hx : 0 < MIN_REQUEST_INTERVAL_MS - (now - T) := by omega
  rw [hkey]
  unfold fetchWeatherThrottled
  rw [hlog]
  simp only [Option.getD_some, if_pos hlt]
  rw [← hcast, ceil_div_thousand _ hx]

/-- Witness for C2: second call 5 seconds after a fetch recorded at time 0
fails `RateLimited` with a 10-second wait, touching nothing. -/
theorem fetchWeather_rateLimited_witness :
    fetchWeatherByCoords "52.52,13.41" 5000 .abortError ⟨[], [("52.52,13.41", 0)]⟩ =
      ⟨.error (.rateLimited 10), ⟨[], [("52.52,13.41", 0)]⟩, false⟩ := by
  rw [fetchWeather_rateLimited "52.52,13.41" 0 5000 .abortError
    ⟨[], [("52.52,13.41", 0)]⟩
    (fun c hc => by simp at hc) rfl (by decide) (by decide)]
  norm_num [MIN_REQUEST_INTERVAL_MS]

/-- C3: the throttle ledger after `fetchWeatherByCoords` is updated (with
`now`, at the fetched key) exactly when the invocation reached the network
and came back successfully; every cache hit and every failing path
(`RateLimited`, timeout, transport failure, non-success status) leaves the
ledger exactly as it was. -/
theorem fetchWeather_ledgerOnlyOnSuccess (key : String) (now : Nat)
    (net : NetOutcome WeatherBody) (st : WeatherState) :
    (fetchWeatherByCoords key now net st).state.requestLog =
      if (fetchWeatherByCoords key now net st).networkCalled
          && (fetchWeatherByCoords key now net st).result.isOk
      then mapSet st.requestLog key now
      else st.requestLog := by
  have hthr : ∀ st' : WeatherState,
      (fetchWeatherThrottled key now net st').state.requestLog =
        if (fetchWeatherThrottled key now net st').networkCalled
            && (fetchWeatherThrottled key now net st').result.isOk
        then mapSet st'.requestLog key now
        else st'.requestLog := by
    intro st'
    by_cases helapsed :
        now - (st'.requestLog.lookup key).getD 0 < MIN_REQUEST_INTERVAL_MS
    · unfold fetchWeatherThrottled
      simp [helapsed, Except.isOk, Except.toBool]
    · cases net with
      | abortError =>
          unfold fetchWeatherThrottled
          simp [helapsed, Except.isOk, Except.toBool]
      | otherError =>
          unfold fetchWeatherThrottled
          simp [helapsed, Except.isOk, Except.toBool]
      | response ok body =>
          unfold fetchWeatherThrottled
          cases ok <;> simp [helapsed, Except.isOk, Except.toBool]
  unfold fetchWeatherByCoords
  cases hc : st.weatherCache.lookup key with
  | none => exact hthr st
  | some c =>
      by_cases hfresh : now - c.ts < CACHE_TTL_MS
      · simp [hfresh, Except.isOk, Except.toBool]
      · simp only [hfresh, if_false]
        exact hthr st

/-- C10: a success-status response with valid JSON but no `current_weather`
object does not fail: the result is a reading whose `temp`, `windspeed`,
`winddirection`, `weathercode` and `time` are all absent and whose
`description` is the sentinel `"-"`; it is written through to the cache and
the ledger is updated, as on any success. -/
theorem fetchWeather_missingCurrentWeather (key : String) (now : Nat)
    (body : WeatherBody) (st : WeatherState)
    (hmiss : ∀ c, st.weatherCache.lookup key = some c → CACHE_TTL_MS ≤ now - c.ts)
    (hthr : MIN_REQUEST_INTERVAL_MS ≤ now - (st.requestLog.lookup key).getD 0)
    (hcw : body.current_weather = none) :
    fetchWeatherByCoords key now (.response true body) st =
      ⟨.ok ⟨body.latitude, body.longitude, none, none, none, none, none,
            (body.hourly_relativehumidity_2m.getD []).head?, "-"⟩,
       ⟨mapSet st.weatherCache key
          ⟨⟨body.latitude, body.longitude, none, none, none, none, none,
            (body.hourly_relativehumidity_2m.getD []).head?, "-"⟩, now⟩,
        mapSet st.requestLog key now⟩,
       true⟩ := by
  have hkey : fetchWeatherByCoords key now (.response true body) st =
      fetchWeatherThrottled key now (.response true body) st := by
    unfold fetchWeatherByCoords
    cases hc : st.weatherCache.lookup key with
    | none => rfl
    | some c => simp [Nat.not_lt.mpr (hmiss c hc)]
  rw [hkey]
  unfold fetchWeatherThrottled
  simp [Nat.not_lt.mpr hthr, hcw, mapWeatherCode]

/-- Witness for C10: concrete payload `{latitude: 52, longitude: 13}` with
no `current_weather` and a two-element humidity series, on empty state. -/
theorem fetchWeather_missingCurrentWeather_witness :
    fetchWeatherByCoords "52.52,13.41" 20000
        (.response true ⟨some 52, some 13, none, some [55, 60]⟩) ⟨[], []⟩ =
      ⟨.ok ⟨some 52, some 13, none, none, none, none, none, some 55, "-"⟩,
       ⟨[("52.52,13.41",
          ⟨⟨some 52, some 13, none, none, none, none, none, some 55, "-"⟩, 20000⟩)],
        [("52.52,13.41", 20000)]⟩,
       true⟩ := by
  rw [fetchWeather_missingCurrentWeather "52.52,13.41" 20000
    ⟨some 52, some 13, none, some [55, 60]⟩ ⟨[], []⟩
    (fun c hc => by simp at hc) (by decide) rfl]
  rfl

/-- Every element of `Map.set k v m` is an element of `m` or is `(k, v)`. -/
theorem mem_mapSet {α : Type} (m : CacheMap α) (k : String) (v : α)
    (x : String × α) (hx : x ∈ mapSet m k v) : x ∈ m ∨ x = (k, v) := by
  unfold mapSet at hx
  split at hx
  · obtain ⟨y, hy, hxy⟩ := List.mem_map.mp hx
    by_cases hyk : y.1 == k
    · right
      rw [← hxy]
      simp [hyk]
    · left
      have hxy2 : x = y := by rw [← hxy]; simp [hyk]
      exact hxy2 ▸ hy
  · rcases List.mem_append.mp hx with h | h
    · exact Or.inl h
    · right
      simpa using h

/-- The fold of `loadCacheFromStorage` only ever inserts entries passing
the freshness guard, so every entry of the result satisfies it. -/
theorem load_fold_fresh {α : Type} (now : Nat) :
    ∀ (entries : List (String × Option (CacheEntry α)))
      (acc : CacheMap (CacheEntry α)),
      (∀ x ∈ acc, x.2.ts ≠ 0 ∧ now - x.2.ts < CACHE_TTL_MS * 2) →
      ∀ x ∈ entries.foldl
          (fun map kv =>
            match kv.2 with
            | some v =>
                if v.ts ≠ 0 ∧ now - v.ts < CACHE_TTL_MS * 2 then
                  mapSet map kv.1 v
                else map
            | none => map)
          acc,
        x.2.ts ≠ 0 ∧ now - x.2.ts < CACHE_TTL_MS * 2 := by
  intro entries
  induction entries with
  | nil => intro acc hacc x hx; exact hacc x hx
  | cons kv rest ih =>
      intro acc hacc x hx
      simp only [List.foldl_cons] at hx
      refine ih _ ?_ x hx
      cases hv : kv.2 with
      | none => simpa [hv] using hacc
      | some v =>
          intro y hy
          simp only [hv] at hy
          split at hy
          case isTrue hguard =>
            rcases mem_mapSet _ _ _ _ hy with h | h
            · exact hacc y h
            · rw [h]
              exact hguard
          case isFalse => exact hacc y hy

/-- C4: `loadCacheFromStorage` is total over every storage state — for an
absent record, a record that fails to deserialize, or an unavailable
storage medium it returns the empty cache — and every entry of a loaded
record whose age at load time is at least `2 × TTL` is absent from the
result (all surviving entries are strictly fresher than `2 × TTL`). -/
theorem loadCacheFromStorage_safe {α : Type} (now : Nat) :
    loadCacheFromStorage (α := α) now .unavailable = [] ∧
    loadCacheFromStorage (α := α) now .absent = [] ∧
    loadCacheFromStorage (α := α) now .corrupt = [] ∧
    (∀ (entries : List (String × Option (CacheEntry α))) (k : String)
        (e : CacheEntry α),
      (k, e) ∈ loadCacheFromStorage now (.record entries) →
        now - e.ts < CACHE_TTL_MS * 2) := by
  refine ⟨rfl, rfl, rfl, ?_⟩
  intro entries k e hmem
  exact (load_fold_fresh now entries [] (by simp) (k, e) hmem).2

/-- Witness for C4: a record holding one fresh entry, one exactly
`2 × TTL` old, and one with zero timestamp loads to just the fresh entry,
which the theorem certifies as strictly fresher than `2 × TTL`. -/
theorem loadCacheFromStorage_safe_witness :
    loadCacheFromStorage (α := Nat) 2000000
        (.record [("a", some ⟨7, 1999999⟩), ("b", some ⟨8, 800000⟩),
                  ("c", some ⟨9, 0⟩), ("d", none)]) =
      [("a", ⟨7, 1999999⟩)] ∧
    2000000 - 1999999 < CACHE_TTL_MS * 2 :=
  ⟨by decide,
   (loadCacheFromStorage_safe 2000000).2.2.2
     [("a", some ⟨7, 1999999⟩), ("b", some ⟨8, 800000⟩),
      ("c", some ⟨9, 0⟩), ("d", none)] "a" ⟨7, 1999999⟩ (by decide)⟩

/-- C5: the record `persistCache` writes carries the cache's entries sorted
descending by timestamp and truncated to 12 — its length is
`min 12 |m|`, it is a sub-collection of `m`, every persisted entry's
timestamp dominates every dropped entry's — and a failing storage write is
swallowed (the call returns normally, writing nothing), while a successful
one writes exactly that record. -/
theorem persistCache_spec {α : Type} (m : CacheMap (CacheEntry α)) :
    (persistEntries m 12).length = min 12 m.length ∧
    List.Pairwise (fun a b => b.2.ts ≤ a.2.ts) (persistEntries m 12) ∧
    (∀ a ∈ persistEntries m 12, a ∈ m) ∧
    (∀ a ∈ persistEntries m 12, ∀ b ∈ m, b ∉ persistEntries m 12 →
      b.2.ts ≤ a.2.ts) ∧
    persistCache m true 12 = none ∧
    persistCache m false 12 = some (persistEntries m 12) := by
  have hsorted : List.Pairwise (fun a b => b.2.ts ≤ a.2.ts)
      (m.mergeSort (fun a b => decide (b.2.ts ≤ a.2.ts))) := by
    have hp := @List.sorted_mergeSort (String × CacheEntry α)
      (fun a b => decide (b.2.ts ≤ a.2.ts))
      (fun a b c hab hbc =>
        decide_eq_true
          (Nat.le_trans (of_decide_eq_true hbc) (of_decide_eq_true hab)))
      (fun a b => by simpa using Nat.le_total b.2.ts a.2.ts)
      m
    exact hp.imp (fun h => by simpa using h)
  refine ⟨?_, ?_, ?_, ?_, rfl, rfl⟩
  · unfold persistEntries
    rw [List.length_take, List.length_mergeSort]
  · exact hsorted.sublist (List.take_sublist 12 _)
  · intro a ha
    exact List.mem_mergeSort.mp (List.take_subset 12 _ ha)
  · intro a ha b hb hbnot
    have hbs : b ∈ m.mergeSort (fun a b => decide (b.2.ts ≤ a.2.ts)) :=
      List.mem_mergeSort.mpr hb
    rw [← List.take_append_drop 12
      (m.mergeSort (fun a b => decide (b.2.ts ≤ a.2.ts)))] at hbs
    rcases List.mem_append.mp hbs with h | h
    · exact absurd h hbnot
    · exact List.Sorted.rel_of_mem_take_of_mem_drop hsorted ha h

/-- Witness for C5 on a concrete 13-entry cache (timestamps 130 down to
10): the persisted record has 12 entries, the newest-12 dominate the
dropped 13th, and the two write outcomes behave as stated. -/
theorem persistCache_spec_witness :
    (persistEntries ([("k1", ⟨1, 130⟩), ("k2", ⟨2, 120⟩), ("k3", ⟨3, 110⟩),
        ("k4", ⟨4, 100⟩), ("k5", ⟨5, 90⟩), ("k6", ⟨6, 80⟩), ("k7", ⟨7, 70⟩),
        ("k8", ⟨8, 60⟩), ("k9", ⟨9, 50⟩), ("k10", ⟨10, 40⟩),
        ("k11", ⟨11, 30⟩), ("k12", ⟨12, 20⟩), ("k13", ⟨13, 10⟩)] :
        CacheMap (CacheEntry Nat)) 12).length = min 12 13 ∧
    (10 : Nat) ≤ 20 := by
  have h := persistCache_spec
    ([("k1", ⟨1, 130⟩), ("k2", ⟨2, 120⟩), ("k3", ⟨3, 110⟩),
      ("k4", ⟨4, 100⟩), ("k5", ⟨5, 90⟩), ("k6", ⟨6, 80⟩), ("k7", ⟨7, 70⟩),
      ("k8", ⟨8, 60⟩), ("k9", ⟨9, 50⟩), ("k10", ⟨10, 40⟩),
      ("k11", ⟨11, 30⟩), ("k12", ⟨12, 20⟩), ("k13", ⟨13, 10⟩)] :
      CacheMap (CacheEntry Nat))
  exact ⟨h.1, h.2.2.2.1 ("k12", ⟨12, 20⟩)
    (by simp [persistEntries, List.mergeSort]) ("k13", ⟨13, 10⟩)
    (by simp) (by simp [persistEntries, List.mergeSort])⟩

/-- C8: the geocode resolver fails `InvalidInput` on inputs empty after
trimming (before touching cache or network); fails `NotFound` when the
upstream returns an empty result set; and for input `"Paris"` with first
match `{latitude: 48.85, longitude: 2.35, name: "Paris", country_code:
"FR"}` (no `admin1`) returns `{lat: 48.85, lon: 2.35, label: "Paris, FR"}`
— the admin-region segment omitted — cached under the lowercased trimmed
key `"paris"`. -/
theorem fetchCoordsByName_spec :
    (∀ name now net (cache : CacheMap (CacheEntry NormalizedGeocode)),
      trimStr name = "" →
      fetchCoordsByName name now net cache = ⟨.error .invalidInput, cache, false⟩) ∧
    (∀ name now (cache : CacheMap (CacheEntry NormalizedGeocode)),
      trimStr name ≠ "" →
      (∀ c, cache.lookup (toLowerStr (trimStr name)) = some c →
        CACHE_TTL_MS ≤ now - c.ts) →
      fetchCoordsByName name now (.response true ⟨some []⟩) cache =
        ⟨.error .notFound, cache, true⟩) ∧
    (∀ now (cache : CacheMap (CacheEntry NormalizedGeocode)),
      (∀ c, cache.lookup "paris" = some c → CACHE_TTL_MS ≤ now - c.ts) →
      fetchCoordsByName "Paris" now
          (.response true ⟨some [⟨(48.85 : ℚ), (2.35 : ℚ), "Paris", none, "FR"⟩]⟩)
          cache =
        ⟨.ok ⟨(48.85 : ℚ), (2.35 : ℚ), "Paris, FR"⟩,
         mapSet cache "paris" ⟨⟨(48.85 : ℚ), (2.35 : ℚ), "Paris, FR"⟩, now⟩,
         true⟩) := by
  refine ⟨?_, ?_, ?_⟩
  · intro name now net cache h
    unfold fetchCoordsByName
    simp [h]
  · intro name now cache h hmiss
    unfold fetchCoordsByName
    simp only [h, if_false]
    have hnet : fetchCoordsByNameNet (toLowerStr (trimStr name)) now
        (.response true ⟨some []⟩) cache = ⟨.error .notFound, cache, true⟩ := by
      unfold fetchCoordsByNameNet
      simp
    cases hc : cache.lookup (toLowerStr (trimStr name)) with
    | none => simpa using hnet
    | some c => simpa [Nat.not_lt.mpr (hmiss c hc)] using hnet
  · intro now cache hmiss
    have htrim : trimStr "Paris" = "Paris" := by decide
    have hlower : toLowerStr "Paris" = "paris" := by decide
    unfold fetchCoordsByName
    simp only [htrim, hlower]
    have hnet : fetchCoordsByNameNet "paris" now
        (.response true ⟨some [⟨(48.85 : ℚ), (2.35 : ℚ), "Paris", none, "FR"⟩]⟩)
        cache =
        ⟨.ok ⟨(48.85 : ℚ), (2.35 : ℚ), "Paris, FR"⟩,
         mapSet cache "paris" ⟨⟨(48.85 : ℚ), (2.35 : ℚ), "Paris, FR"⟩, now⟩,
         true⟩ := by
      unfold fetchCoordsByNameNet
      simp
    cases hc : cache.lookup "paris" with
    | none => simpa using hnet
    | some c => simpa [Nat.not_lt.mpr (hmiss c hc)] using hnet

/-- Witness for C8: the three scenarios at concrete inputs on the empty
cache. -/
theorem fetchCoordsByName_spec_witness :
    fetchCoordsByName "" 0 .abortError [] = ⟨.error .invalidInput, [], false⟩ ∧
    fetchCoordsByName "Nowhereville" 0 (.response true ⟨some []⟩) [] =
      ⟨.error .notFound, [], true⟩ ∧
    fetchCoordsByName "Paris" 0
        (.response true ⟨some [⟨(48.85 : ℚ), (2.35 : ℚ), "Paris", none, "FR"⟩]⟩) [] =
      ⟨.ok ⟨(48.85 : ℚ), (2.35 : ℚ), "Paris, FR"⟩,
       [("paris", ⟨⟨(48.85 : ℚ), (2.35 : ℚ), "Paris, FR"⟩, 0⟩)], true⟩ :=
  ⟨fetchCoordsByName_spec.1 "" 0 .abortError [] rfl,
   fetchCoordsByName_spec.2.1 "Nowhereville" 0 [] (by decide)
     (fun c hc => by simp at hc),
   by
     rw [fetchCoordsByName_spec.2.2 0 [] (fun c hc => by simp at hc)]
     rfl⟩

/-- The weather cache after the throttled path is either untouched or the
`Map.set` write-through of the fetched key. -/
theorem weatherCache_after_throttled (key : String) (now : Nat)
    (net : NetOutcome WeatherBody) (st : WeatherState) :
    (fetchWeatherThrottled key now net st).state.weatherCache = st.weatherCache ∨
    ∃ w, (fetchWeatherThrottled key now net st).state.weatherCache =
      mapSet st.weatherCache key w := by
  by_cases helapsed :
      now - (st.requestLog.lookup key).getD 0 < MIN_REQUEST_INTERVAL_MS
  · left
    unfold fetchWeatherThrottled
    simp [helapsed]
  · cases net with
    | abortError => left; unfold fetchWeatherThrottled; simp [helapsed]
    | otherError => left; unfold fetchWeatherThrottled; simp [helapsed]
    | response ok body =>
        cases ok with
        | false => left; unfold fetchWeatherThrottled; simp [helapsed]
        | true =>
            right
            unfold fetchWeatherThrottled
            simp only [helapsed, if_false]
            exact ⟨_, rfl⟩

/-- The weather cache after a full `fetchWeatherByCoords` call is either
untouched or the `Map.set` write-through of the fetched key. -/
theorem weatherCache_after_fetch (key : String) (now : Nat)
    (net : NetOutcome WeatherBody) (st : WeatherState) :
    (fetchWeatherByCoords key now net st).state.weatherCache = st.weatherCache ∨
    ∃ w, (fetchWeatherByCoords key now net st).state.weatherCache =
      mapSet st.weatherCache key w := by
  unfold fetchWeatherByCoords
  cases hc : st.weatherCache.lookup key with
  | none => exact weatherCache_after_throttled key now net st
  | some c =>
      by_cases hfresh : now - c.ts < CACHE_TTL_MS
      · left; simp [hfresh]
      · simp only [hfresh, if_false]
        exact weatherCache_after_throttled key now net st

/-- The geocode cache after a full `fetchCoordsByName` call is either
untouched or the `Map.set` write-through of the normalized key. -/
theorem geocodeCache_after_fetch (name : String) (now : Nat)
    (net : NetOutcome GeocodeBody)
    (cache : CacheMap (CacheEntry NormalizedGeocode)) :
    (fetchCoordsByName name now net cache).state = cache ∨
    ∃ v, (fetchCoordsByName name now net cache).state =
      mapSet cache (toLowerStr (trimStr name)) v := by
  have hnet : ∀ k, (fetchCoordsByNameNet k now net cache).state = cache ∨
      ∃ v, (fetchCoordsByNameNet k now net cache).state = mapSet cache k v := by
    intro k
    cases net with
    | abortError => left; rfl
    | otherError => left; rfl
    | response ok body =>
        cases ok with
        | false => left; rfl
        | true =>
            unfold fetchCoordsByNameNet
            cases hh : (body.results.getD []).head? with
            | none => left; simp [hh]
            | some first =>
                right
                simp only [hh]
                exact ⟨_, rfl⟩
  unfold fetchCoordsByName
  by_cases htrim : trimStr name = ""
  · left; simp [htrim]
  · simp only [htrim, if_false]
    cases hc : cache.lookup (toLowerStr (trimStr name)) with
    | none => exact hnet _
    | some c =>
        by_cases hfresh : now - c.ts < CACHE_TTL_MS
        · left; simp [hfresh]
        · simp only [hfresh, if_false]
          exact hnet _

/-- C9: neither fetcher ever drops an in-memory cache entry — every entry
present before a call is still present (refreshed only at the fetched key)
and the maps never shrink — while the record `persistCache` writes to
storage is capped at 12 entries; the truncation never applies to the
in-memory maps. -/
theorem inMemoryCaches_unbounded :
    (∀ key now net st k0 (e : CacheEntry NormalizedWeather),
      st.weatherCache.lookup k0 = some e →
      ∃ e', (fetchWeatherByCoords key now net st).state.weatherCache.lookup k0
          = some e' ∧ (k0 ≠ key → e' = e)) ∧
    (∀ key now net st,
      st.weatherCache.length ≤
        (fetchWeatherByCoords key now net st).state.weatherCache.length) ∧
    (∀ name now net (cache : CacheMap (CacheEntry NormalizedGeocode)) k0 e,
      cache.lookup k0 = some e →
      ∃ e', (fetchCoordsByName name now net cache).state.lookup k0 = some e' ∧
        (k0 ≠ toLowerStr (trimStr name) → e' = e)) ∧
    (∀ name now net (cache : CacheMap (CacheEntry NormalizedGeocode)),
      cache.length ≤ (fetchCoordsByName name now net cache).state.length) ∧
    (∀ (m : CacheMap (CacheEntry NormalizedWeather)) (storageFails : Bool) l,
      persistCache m storageFails 12 = some l → l.length ≤ 12) := by
  have hpreserve : ∀ {α : Type} (m : CacheMap α) key k0 v (e : α),
      m.lookup k0 = some e →
      ∃ e', (mapSet m key v).lookup k0 = some e' ∧ (k0 ≠ key → e' = e) := by
    intro α m key k0 v e he
    by_cases hk : k0 = key
    · subst hk
      exact ⟨v, lookup_mapSet_self m k0 v, fun h => absurd rfl h⟩
    · exact ⟨e, (lookup_mapSet_ne m key k0 v hk).trans he, fun _ => rfl⟩
  refine ⟨?_, ?_, ?_, ?_, ?_⟩
  · intro key now net st k0 e he
    rcases weatherCache_after_fetch key now net st with h | ⟨w, h⟩
    · rw [h]
      exact ⟨e, he, fun _ => rfl⟩
    · rw [h]
      exact hpreserve st.weatherCache key k0 w e he
  · intro key now net st
    rcases weatherCache_after_fetch key now net st with h | ⟨w, h⟩
    · rw [h]
    · rw [h, length_mapSet]
      split <;> omega
  · intro name now net cache k0 e he
    rcases geocodeCache_after_fetch name now net cache with h | ⟨v, h⟩
    · rw [h]
      exact ⟨e, he, fun _ => rfl⟩
    · rw [h]
      exact hpreserve cache (toLowerStr (trimStr name)) k0 v e he
  · intro name now net cache
    rcases geocodeCache_after_fetch name now net cache with h | ⟨v, h⟩
    · rw [h]
    · rw [h, length_mapSet]
      split <;> omega
  · intro m storageFails l hl
    cases storageFails with
    | true => simp [persistCache] at hl
    | false =>
        have hl2 : l = persistEntries m 12 := by
          simpa [persistCache] using hl.symm
        rw [hl2]
        unfold persistEntries
        exact List.length_take_le 12 _

/-- Witness for C9: a successful weather fetch for key `"b"` on a state
holding an entry for `"a"` keeps the `"a"` entry intact. -/
theorem inMemoryCaches_unbounded_witness :
    ∃ e', ((fetchWeatherByCoords "b" 20000
          (.response true ⟨some 52, some 13, none, none⟩)
          ⟨[("a", ⟨⟨none, none, none, none, none, none, none, none, "-"⟩, 5⟩)],
           []⟩).state.weatherCache.lookup "a" = some e') ∧
      ("a" ≠ "b" →
        e' = ⟨⟨none, none, none, none, none, none, none, none, "-"⟩, 5⟩) :=
  inMemoryCaches_unbounded.1 "b" 20000 (.response true ⟨some 52, some 13, none, none⟩)
    ⟨[("a", ⟨⟨none, none, none, none, none, none, none, none, "-"⟩, 5⟩)], []⟩
    "a" ⟨⟨none, none, none, none, none, none, none, none, "-"⟩, 5⟩ (by decide)

/-- C7 counterexample: a weather-cache entry of age exactly TTL (a miss)
whose key has a ledger time 1s old.  The call does not return the cached
value, but neither does it attempt a network call — it fails `RateLimited`
— refuting "for every cached entry with age ≥ TTL, resolve/fetch treat it
as a miss and must attempt a network call". -/
theorem fetchWeather_staleThrottled_noNetwork :
    ((⟨[("52.52,13.41",
          ⟨⟨none, none, none, none, none, none, none, none, "-"⟩, 0⟩)],
       [("52.52,13.41", 599000)]⟩ : WeatherState).weatherCache.lookup
        "52.52,13.41" =
      some ⟨⟨none, none, none, none, none, none, none, none, "-"⟩, 0⟩) ∧
    CACHE_TTL_MS ≤ 600000 - 0 ∧
    (fetchWeatherByCoords "52.52,13.41" 600000 .abortError
       ⟨[("52.52,13.41",
           ⟨⟨none, none, none, none, none, none, none, none, "-"⟩, 0⟩)],
        [("52.52,13.41", 599000)]⟩).networkCalled = false ∧
    (fetchWeatherByCoords "52.52,13.41" 600000 .abortError
       ⟨[("52.52,13.41",
           ⟨⟨none, none, none, none, none, none, none, none, "-"⟩, 0⟩)],
        [("52.52,13.41", 599000)]⟩).result =
      .error (.rateLimited 14) := by
  refine ⟨rfl, by decide, ?_, ?_⟩ <;>
    · unfold fetchWeatherByCoords fetchWeatherThrottled
      decide

/-- C7 (amended): cached entries are used exactly when age < TTL.  A fresh
hit returns the cached value with zero network calls (for the resolver,
on a non-empty trimmed query); an entry of age ≥ TTL is treated exactly as
a miss (the call behaves identically to the no-entry path): the resolver
then always attempts a network call, and the weather fetcher attempts one
exactly when the throttle window has elapsed — otherwise it fails
`RateLimited` without any network call. -/
theorem cacheTTL_boundary :
    (∀ name now net (cache : CacheMap (CacheEntry NormalizedGeocode)) c,
      trimStr name ≠ "" →
      cache.lookup (toLowerStr (trimStr name)) = some c →
      now - c.ts < CACHE_TTL_MS →
      fetchCoordsByName name now net cache = ⟨.ok c.data, cache, false⟩) ∧
    (∀ name now net (cache : CacheMap (CacheEntry NormalizedGeocode)) c,
      trimStr name ≠ "" →
      cache.lookup (toLowerStr (trimStr name)) = some c →
      CACHE_TTL_MS ≤ now - c.ts →
      fetchCoordsByName name now net cache =
        fetchCoordsByNameNet (toLowerStr (trimStr name)) now net cache) ∧
    (∀ key now net (cache : CacheMap (CacheEntry NormalizedGeocode)),
      (fetchCoordsByNameNet key now net cache).networkCalled = true) ∧
    (∀ key now net st (c : CacheEntry NormalizedWeather),
      st.weatherCache.lookup key = some c →
      now - c.ts < CACHE_TTL_MS →
      fetchWeatherByCoords key now net st = ⟨.ok c.data, st, false⟩) ∧
    (∀ key now net st (c : CacheEntry NormalizedWeather),
      st.weatherCache.lookup key = some c →
      CACHE_TTL_MS ≤ now - c.ts →
      fetchWeatherByCoords key now net st =
        fetchWeatherThrottled key now net st) ∧
    (∀ key now net st,
      MIN_REQUEST_INTERVAL_MS ≤ now - (st.requestLog.lookup key).getD 0 →
      (fetchWeatherThrottled key now net st).networkCalled = true) ∧
    (∀ key now net st,
      now - (st.requestLog.lookup key).getD 0 < MIN_REQUEST_INTERVAL_MS →
      (fetchWeatherThrottled key now net st).networkCalled = false ∧
      ∃ w, (fetchWeatherThrottled key now net st).result =
        .error (.rateLimited w)) := by
  refine ⟨?_, ?_, ?_, ?_, ?_, ?_, ?_⟩
  · intro name now net cache c htrim hc hfresh
    unfold fetchCoordsByName
    simp only [htrim, if_false]
    rw [hc]
    simp [hfresh]
  · intro name now net cache c htrim hc hstale
    unfold fetchCoordsByName
    simp only [htrim, if_false]
    rw [hc]
    simp [Nat.not_lt.mpr hstale]
  · intro key now net cache
    cases net with
    | abortError => rfl
    | otherError => rfl
    | response ok body =>
        unfold fetchCoordsByNameNet
        cases ok with
        | false => rfl
        | true =>
            cases hh : (body.results.getD []).head? <;> simp [hh]
  · intro key now net st c hc hfresh
    unfold fetchWeatherByCoords
    rw [hc]
    simp [hfresh]
  · intro key now net st c hc hstale
    unfold fetchWeatherByCoords
    rw [hc]
    simp [Nat.not_lt.mpr hstale]
  · intro key now net st hel
    cases net with
    | abortError => unfold fetchWeatherThrottled; simp [Nat.not_lt.mpr hel]
    | otherError => unfold fetchWeatherThrottled; simp [Nat.not_lt.mpr hel]
    | response ok body =>
        unfold fetchWeatherThrottled
        cases ok <;> simp [Nat.not_lt.mpr hel]
  · intro key now net st hel
    unfold fetchWeatherThrottled
    simp [hel]

/-- Witness for the amended C7: a fresh geocode hit returns the cached
value with no network call; a stale weather entry behaves exactly as the
no-entry path and, with the 15s window open, performs the network call. -/
theorem cacheTTL_boundary_witness :
    fetchCoordsByName "Paris" 1 .abortError
        [("paris", ⟨⟨(48.85 : ℚ), (2.35 : ℚ), "Paris, FR"⟩, 0⟩)] =
      ⟨.ok ⟨(48.85 : ℚ), (2.35 : ℚ), "Paris, FR"⟩,
       [("paris", ⟨⟨(48.85 : ℚ), (2.35 : ℚ), "Paris, FR"⟩, 0⟩)], false⟩ ∧
    fetchWeatherByCoords "1,2" 600000 .abortError
        ⟨[("1,2", ⟨⟨none, none, none, none, none, none, none, none, "-"⟩, 0⟩)],
         []⟩ =
      fetchWeatherThrottled "1,2" 600000 .abortError
        ⟨[("1,2", ⟨⟨none, none, none, none, none, none, none, none, "-"⟩, 0⟩)],
         []⟩ ∧
    (fetchWeatherThrottled "1,2" 600000 .abortError
        ⟨[("1,2", ⟨⟨none, none, none, none, none, none, none, none, "-"⟩, 0⟩)],
         []⟩).networkCalled = true :=
  ⟨cacheTTL_boundary.1 "Paris" 1 .abortError
     [("paris", ⟨⟨(48.85 : ℚ), (2.35 : ℚ), "Paris, FR"⟩, 0⟩)]
     ⟨⟨(48.85 : ℚ), (2.35 : ℚ), "Paris, FR"⟩, 0⟩
     (by decide) rfl (by decide),
   cacheTTL_boundary.2.2.2.2.1 "1,2" 600000 .abortError
     ⟨[("1,2", ⟨⟨none, none, none, none, none, none, none, none, "-"⟩, 0⟩)], []⟩
     ⟨⟨none, none, none, none, none, none, none, none, "-"⟩, 0⟩
     rfl (by decide),
   cacheTTL_boundary.2.2.2.2.2.1 "1,2" 600000 .abortError
     ⟨[("1,2", ⟨⟨none, none, none, none, none, none, none, none, "-"⟩, 0⟩)], []⟩
     (by decide)⟩
